/-
  Verification of the granular synthesis engine in
  src/ambify-alpha/src/app/hooks/useGranularEngine.ts.

  The engine's numeric computations (grain placement, envelope timing,
  interval/step computation, impulse-response construction, render sizing)
  are embedded as Lean functions over ℚ; the only real-valued quantity is
  the equal-temperament playback rate, which uses a real power and is
  embedded over ℝ.  Randomness (Math.random(), a draw in [0,1)) is made
  explicit as a rational argument `r` with `0 ≤ r` and `r < 1`.
-/
import Mathlib

namespace Granular

/-- The parameter record `GranularParams` from useGranularEngine.ts
    (lines 19-30).  All fields are JS numbers; we embed them as ℚ
    (the pitch math that needs a real power casts to ℝ separately). -/
structure GranularParams where
  grainSizeMs : ℚ
  density : ℚ
  playbackRate : ℚ
  detuneSemitones : ℚ
  startPoint : ℚ
  endPoint : ℚ
  attackMs : ℚ
  releaseMs : ℚ
  reverbWet : ℚ
  reverbDecay : ℚ
deriving DecidableEq, Repr

/-- The per-grain quantities a grain spawn computes and hands to the
    audio backend: source offset, duration, and the envelope breakpoints
    (all in seconds).  `releaseStart` is absolute (offset by the current
    clock value `now`/`t`), exactly as in the source.  The playback rate
    is real-valued and is embedded separately as `spawnGrainRate` /
    `offlineGrainRate`. -/
structure GrainDescriptor where
  offset : ℚ
  grainDuration : ℚ
  attackSec : ℚ
  releaseSec : ℚ
  releaseStart : ℚ
deriving DecidableEq, Repr

/-- The body of `spawnGrain` (useGranularEngine.ts lines 154-214):
    the live path.  `r` is the `Math.random()` draw, `now` is
    `ctx.currentTime`.  Returns `none` when `endPoint ≤ startPoint`
    (line 159); the `!ctx || !buffer` bail-out is modelled at the
    scheduler level (`start` requires a loaded buffer).  -/
def spawnGrain (params : GranularParams) (r now : ℚ) : Option GrainDescriptor :=
  if params.endPoint ≤ params.startPoint then none
  else
    let grainDuration := params.grainSizeMs / 1000
    let windowLength := max (params.endPoint - params.startPoint) 0.05
    let offsetRange := max (windowLength - grainDuration) 0
    let randomOffset := r * offsetRange
    let offset := params.startPoint + randomOffset
    let maxEnvelope := max (grainDuration - 0.005) 0.005
    let attackSec := min (params.attackMs / 1000) maxEnvelope
    let releaseSec := min (params.releaseMs / 1000) (maxEnvelope - attackSec)
    let releaseStart := now + max (grainDuration - releaseSec) attackSec
    some { offset := offset, grainDuration := grainDuration,
           attackSec := attackSec, releaseSec := releaseSec,
           releaseStart := releaseStart }

/-- The per-grid-point grain computation inside `renderLoop`
    (useGranularEngine.ts lines 279-306): the offline path.  `r` is the
    `Math.random()` draw for this grid point and `t` the grid time.
    Unlike `spawnGrain` there is no `endPoint ≤ startPoint` skip in the
    offline loop body. -/
def offlineGrain (params : GranularParams) (r t : ℚ) : GrainDescriptor :=
  let grainDuration := params.grainSizeMs / 1000
  let windowLength := max (params.endPoint - params.startPoint) 0.05
  let offsetRange := max (windowLength - grainDuration) 0
  let randomOffset := r * offsetRange
  let offset := params.startPoint + randomOffset
  let maxEnvelope := max (grainDuration - 0.005) 0.005
  let attackSec := min (params.attackMs / 1000) maxEnvelope
  let releaseSec := min (params.releaseMs / 1000) (maxEnvelope - attackSec)
  let releaseStart := t + max (grainDuration - releaseSec) attackSec
  { offset := offset, grainDuration := grainDuration,
    attackSec := attackSec, releaseSec := releaseSec,
    releaseStart := releaseStart }

/-- The grain window length `max(endPoint - startPoint, 0.05)`
    (lines 165 and 280). -/
def windowLength (params : GranularParams) : ℚ :=
  max (params.endPoint - params.startPoint) 0.05

/-- The effective playback rate set on the live grain source
    (useGranularEngine.ts lines 181-182):
    `playbackRate * Math.pow(2, detuneSemitones / 12)`. -/
noncomputable def spawnGrainRate (params : GranularParams) : ℝ :=
  (params.playbackRate : ℝ) * (2 : ℝ) ^ ((params.detuneSemitones : ℝ) / 12)

/-- The effective playback rate set on an offline grain source
    (useGranularEngine.ts lines 287-288), computed by the same formula. -/
noncomputable def offlineGrainRate (params : GranularParams) : ℝ :=
  (params.playbackRate : ℝ) * (2 : ℝ) ^ ((params.detuneSemitones : ℝ) / 12)

/-- The tick interval `intervalMs = 1000 / Math.max(density, 1)` of the
    live scheduler (useGranularEngine.ts line 225). -/
def intervalMs (density : ℚ) : ℚ :=
  1000 / max density 1

/-- The offline grid step `step = 1 / Math.max(density, 1)` seconds
    (useGranularEngine.ts line 276). -/
def offlineStep (density : ℚ) : ℚ :=
  1 / max density 1

/-- The impulse-response length
    `Math.max(Math.floor(decaySec * sampleRate), 1)`, shared by the live
    builder (line 73), the updateParams rebuild (line 130) and the
    offline builder (line 254). -/
def impulseLength (decaySec sampleRate : ℚ) : ℕ :=
  (max ⌊decaySec * sampleRate⌋ 1).toNat

/-- The live reverb impulse builder `makeImpulse` inside `ensureContext`
    (useGranularEngine.ts lines 71-86): a stereo buffer (2 channels),
    each of `impulseLength` samples, sample `i` being
    `(rand*2 - 1) * (1 - i/length)^2` where `rand ch i` stands for the
    `Math.random()` draw used at channel `ch`, index `i`. -/
def makeImpulseLive (decaySec sampleRate : ℚ) (rand : ℕ → ℕ → ℚ) :
    List (List ℚ) :=
  let length := impulseLength decaySec sampleRate
  (List.range 2).map fun ch =>
    (List.range length).map fun i =>
      (rand ch i * 2 - 1) * (1 - (i : ℚ) / (length : ℚ)) ^ 2

/-- The offline reverb impulse builder `makeImpulse` inside `renderLoop`
    (useGranularEngine.ts lines 253-263), textually the same construction
    against the offline context's sample rate. -/
def makeImpulseOffline (decaySec sampleRate : ℚ) (rand : ℕ → ℕ → ℚ) :
    List (List ℚ) :=
  let length := impulseLength decaySec sampleRate
  (List.range 2).map fun ch =>
    (List.range length).map fun i =>
      (rand ch i * 2 - 1) * (1 - (i : ℚ) / (length : ℚ)) ^ 2

/-- A decoded source buffer as the engine sees it: channel count, sample
    rate and frame count (§3 SourceBuffer; the sample data itself is
    irrelevant to every scheduling claim). -/
structure SourceBuffer where
  numberOfChannels : ℕ
  sampleRate : ℚ
  frames : ℕ
deriving DecidableEq, Repr

/-- The mutable scheduler-relevant state of one engine instance:
    `bufferRef`, `paramsRef`, `timerRef` (modelled as the interval of the
    active periodic timer, if any) and the `isPlaying` UI state. -/
structure EngineState where
  buffer : Option SourceBuffer
  params : GranularParams
  timer : Option ℚ
  isPlaying : Bool
deriving DecidableEq, Repr

/-- The error the engine reports to the caller (via `alert`) when
    `start()` or `renderLoop()` is invoked with no decoded buffer. -/
inductive EngineError where
  | NoBufferLoaded
deriving DecidableEq, Repr

/-- `start()` (useGranularEngine.ts lines 217-228): if no buffer is
    loaded, report `NoBufferLoaded` and return with the state untouched
    (the buffer check precedes `clearTimer`); otherwise clear any
    existing timer, compute `intervalMs` from the current density, start
    the periodic timer and set `isPlaying`.  (`ensureContext`/`resume`
    touch only the audio-backend graph, which is outside the scheduler
    state.) -/
def start (s : EngineState) : EngineState × Option EngineError :=
  match s.buffer with
  | none => (s, some EngineError.NoBufferLoaded)
  | some _ =>
      ({ s with timer := some (intervalMs s.params.density),
                isPlaying := true }, none)

/-- `stop()` (useGranularEngine.ts lines 231-234): clear the timer and
    reset `isPlaying`. -/
def stop (s : EngineState) : EngineState :=
  { s with timer := none, isPlaying := false }

/-- The metadata of the buffer `renderLoop` renders into: the
    `OfflineAudioContext(channels, totalFrames, sampleRate)` target
    (useGranularEngine.ts lines 249-250). -/
structure RenderedBuffer where
  numberOfChannels : ℕ
  frames : ℤ
  sampleRate : ℚ
deriving DecidableEq, Repr

/-- `renderLoop(durationSec)` (useGranularEngine.ts lines 237-312),
    restricted to what it returns to the caller: `none` when no buffer is
    loaded (line 239-242, after an `alert`), otherwise a rendered buffer
    with the source's channel count and exactly
    `Math.ceil(durationSec * sampleRate)` frames, where `ctxSampleRate`
    is the live context's sample rate (line 247).  The per-grid-point
    grain scheduling inside the loop is embedded as `offlineGrain`. -/
def renderLoop (s : EngineState) (ctxSampleRate durationSec : ℚ) :
    Option RenderedBuffer :=
  match s.buffer with
  | none => none
  | some buf =>
      some { numberOfChannels := buf.numberOfChannels,
             frames := ⌈durationSec * ctxSampleRate⌉,
             sampleRate := ctxSampleRate }

/-- A partial parameter update, one optional field per `GranularParams`
    field: the `Partial<GranularParams>` argument of `updateParams`. -/
structure PartialParams where
  grainSizeMs : Option ℚ := none
  density : Option ℚ := none
  playbackRate : Option ℚ := none
  detuneSemitones : Option ℚ := none
  startPoint : Option ℚ := none
  endPoint : Option ℚ := none
  attackMs : Option ℚ := none
  releaseMs : Option ℚ := none
  reverbWet : Option ℚ := none
  reverbDecay : Option ℚ := none
deriving DecidableEq, Repr

/-- The parameter merge `paramsRef.current = { ...paramsRef.current,
    ...partial }` of `updateParams` (useGranularEngine.ts line 121, and
    identically in the second engine variant): every field present in the
    partial overwrites the stored field, every absent field keeps its
    stored value. -/
def updateParams (p : GranularParams) (q : PartialParams) : GranularParams :=
  { grainSizeMs := q.grainSizeMs.getD p.grainSizeMs
    density := q.density.getD p.density
    playbackRate := q.playbackRate.getD p.playbackRate
    detuneSemitones := q.detuneSemitones.getD p.detuneSemitones
    startPoint := q.startPoint.getD p.startPoint
    endPoint := q.endPoint.getD p.endPoint
    attackMs := q.attackMs.getD p.attackMs
    releaseMs := q.releaseMs.getD p.releaseMs
    reverbWet := q.reverbWet.getD p.reverbWet
    reverbDecay := q.reverbDecay.getD p.reverbDecay }

/-- The initial parameter set the page mounts the engine with
    (the `DEFAULT_PARAMS` literal of page.tsx), used as a concrete base
    point for witnesses. -/
def defaultParams : GranularParams :=
  { grainSizeMs := 120, density := 8, playbackRate := 1,
    detuneSemitones := 0, startPoint := 0, endPoint := 1,
    attackMs := 10, releaseMs := 30, reverbWet := 0.25, reverbDecay := 2.5 }

/-- The C2 scenario parameter set: attackMs=500, releaseMs=500,
    grainSizeMs=50 on top of the page defaults. -/
def envelopeScenarioParams : GranularParams :=
  { defaultParams with grainSizeMs := 50, attackMs := 500, releaseMs := 500 }

/-- An idle engine with nothing loaded: fresh mount state. -/
def idleNoBufferState : EngineState :=
  { buffer := none, params := defaultParams, timer := none, isPlaying := false }

/-- A stereo 44.1 kHz source of 441000 frames (a 10-second file). -/
def stereoSource : SourceBuffer :=
  { numberOfChannels := 2, sampleRate := 44100, frames := 441000 }

/-- An engine state with `stereoSource` loaded and the scheduler idle. -/
def loadedState : EngineState :=
  { buffer := some stereoSource, params := defaultParams,
    timer := none, isPlaying := false }

/-- A partial update touching only the reverb mix. -/
def wetOnlyPartial : PartialParams :=
  { reverbWet := some 0.5 }

/-- A fixed mid-range RNG stream. -/
def halfRand : ℕ → ℕ → ℚ := fun _ _ => 1/2

/-- A valid region with a grain far longer than the window: 2000 ms
    grains over the default `[0,1]` second region. -/
def oversizedGrainParams : GranularParams :=
  { defaultParams with grainSizeMs := 2000 }

/-- A 10 ms region with 10 ms grains: narrower than the 50 ms minimum
    window. -/
def narrowRegionParams : GranularParams :=
  { defaultParams with startPoint := 0, endPoint := 0.01, grainSizeMs := 10 }

/-- When the range is valid the live path produces exactly the grain the
    offline loop body computes at the same clock value and random draw:
    the two code paths are textually identical. -/
theorem spawnGrain_eq_offlineGrain (params : GranularParams) (r now : ℚ)
    (h : ¬ params.endPoint ≤ params.startPoint) :
    spawnGrain params r now = some (offlineGrain params r now) := by
  simp [spawnGrain, offlineGrain, h]

/-- The attack of any grain never exceeds the envelope budget. -/
theorem offlineGrain_attack_le (params : GranularParams) (r t : ℚ) :
    (offlineGrain params r t).attackSec ≤
      max (params.grainSizeMs / 1000 - 0.005) 0.005 := by
  simp only [offlineGrain]
  exact min_le_right _ _

/-- Attack plus release of any grain stays within the envelope budget. -/
theorem offlineGrain_envelope_le (params : GranularParams) (r t : ℚ) :
    (offlineGrain params r t).attackSec + (offlineGrain params r t).releaseSec ≤
      max (params.grainSizeMs / 1000 - 0.005) 0.005 := by
  simp only [offlineGrain]
  have h := min_le_right (params.releaseMs / 1000)
    (max (params.grainSizeMs / 1000 - 0.005) 0.005 -
      min (params.attackMs / 1000) (max (params.grainSizeMs / 1000 - 0.005) 0.005))
  linarith

/-- C2: for every grainSizeMs (in particular every positive one) and every
    attackMs/releaseMs — including values whose seconds equivalent exceeds
    the grain duration — both the live and the offline envelope satisfy
    `attack + release ≤ max(grainDuration − 0.005, 0.005)`; and the
    scenario attackMs=500, releaseMs=500, grainSizeMs=50 yields
    maxEnvelope = 0.045, attack = 0.045, release = 0. -/
theorem envelope_budget :
    (∀ (params : GranularParams) (r t : ℚ),
        (offlineGrain params r t).attackSec + (offlineGrain params r t).releaseSec ≤
          max (params.grainSizeMs / 1000 - 0.005) 0.005) ∧
    (∀ (params : GranularParams) (r now : ℚ) (g : GrainDescriptor),
        spawnGrain params r now = some g →
        g.attackSec + g.releaseSec ≤
          max (params.grainSizeMs / 1000 - 0.005) 0.005) ∧
    (∀ r t : ℚ,
        max ((envelopeScenarioParams.grainSizeMs) / 1000 - 0.005) 0.005
          = 0.045 ∧
        (offlineGrain envelopeScenarioParams r t).attackSec = 0.045 ∧
        (offlineGrain envelopeScenarioParams r t).releaseSec = 0) := by
  refine ⟨offlineGrain_envelope_le, ?_, ?_⟩
  · intro params r now g hg
    rcases Decidable.em (params.endPoint ≤ params.startPoint) with h | h
    · simp [spawnGrain, h] at hg
    · rw [spawnGrain_eq_offlineGrain params r now h] at hg
      cases hg
      exact offlineGrain_envelope_le params r now
  · intro r t
    refine ⟨by norm_num [envelopeScenarioParams, defaultParams], ?_, ?_⟩ <;>
      norm_num [offlineGrain, envelopeScenarioParams, defaultParams]

/-- C4: for every density — including 0 and negative values — the divisor
    `max(density, 1)` is at least 1 (hence nonzero: no division by zero),
    and both the live tick interval `1000 / max(density, 1)` and the
    offline grid step `1 / max(density, 1)` are positive. -/
theorem density_floor_no_div_zero :
    ∀ density : ℚ,
      1 ≤ max density 1 ∧ max density 1 ≠ 0 ∧
      0 < intervalMs density ∧ 0 < offlineStep density := by
  intro density
  have h1 : (1 : ℚ) ≤ max density 1 := le_max_right density 1
  have h0 : (0 : ℚ) < max density 1 := lt_of_lt_of_le one_pos h1
  exact ⟨h1, ne_of_gt h0, div_pos (by norm_num) h0, div_pos one_pos h0⟩

/-- C8: the release-ramp start `now/t + max(grainDuration − release,
    attack)` never precedes the end of the attack ramp, on both the
    offline and the live path. -/
theorem releaseStart_ge_attack :
    (∀ (params : GranularParams) (r t : ℚ),
        t + (offlineGrain params r t).attackSec ≤
          (offlineGrain params r t).releaseStart) ∧
    (∀ (params : GranularParams) (r now : ℚ) (g : GrainDescriptor),
        spawnGrain params r now = some g →
        now + g.attackSec ≤ g.releaseStart) := by
  constructor
  · intro params r t
    simp only [offlineGrain]
    have h := le_max_right
      (params.grainSizeMs / 1000 -
        min (params.releaseMs / 1000)
          (max (params.grainSizeMs / 1000 - 0.005) 0.005 -
            min (params.attackMs / 1000)
              (max (params.grainSizeMs / 1000 - 0.005) 0.005)))
      (min (params.attackMs / 1000) (max (params.grainSizeMs / 1000 - 0.005) 0.005))
    linarith
  · intro params r now g hg
    rcases Decidable.em (params.endPoint ≤ params.startPoint) with h | h
    · simp [spawnGrain, h] at hg
    · rw [spawnGrain_eq_offlineGrain params r now h] at hg
      cases hg
      simp only [offlineGrain]
      have h' := le_max_right
        (params.grainSizeMs / 1000 -
          min (params.releaseMs / 1000)
            (max (params.grainSizeMs / 1000 - 0.005) 0.005 -
              min (params.attackMs / 1000)
                (max (params.grainSizeMs / 1000 - 0.005) 0.005)))
        (min (params.attackMs / 1000) (max (params.grainSizeMs / 1000 - 0.005) 0.005))
      linarith

/-- Witness for `releaseStart_ge_attack`: the live branch applied to the
    default parameters at a concrete draw and clock. -/
theorem releaseStart_ge_attack_witness :
    0 + (offlineGrain defaultParams 0 0).attackSec ≤
      (offlineGrain defaultParams 0 0).releaseStart :=
  releaseStart_ge_attack.2 defaultParams 0 0 (offlineGrain defaultParams 0 0)
    (spawnGrain_eq_offlineGrain defaultParams 0 0 (by norm_num [defaultParams]))

/-- Witness for `envelope_budget`: the live branch applied to the default
    parameters at a concrete draw and clock. -/
theorem envelope_budget_witness :
    (offlineGrain defaultParams 0 0).attackSec +
      (offlineGrain defaultParams 0 0).releaseSec ≤
      max (defaultParams.grainSizeMs / 1000 - 0.005) 0.005 :=
  envelope_budget.2.1 defaultParams 0 0 (offlineGrain defaultParams 0 0)
    (spawnGrain_eq_offlineGrain defaultParams 0 0 (by norm_num [defaultParams]))

/-- C5: with no SourceBuffer loaded, `start()` reports `NoBufferLoaded`
    to the caller and leaves the whole scheduler state untouched (in
    particular `isPlaying` stays as it was — `false` when Idle — and no
    periodic timer is created), and `renderLoop` returns no buffer. -/
theorem start_render_no_buffer (s : EngineState) (h : s.buffer = none)
    (ctxSampleRate durationSec : ℚ) :
    start s = (s, some EngineError.NoBufferLoaded) ∧
    (start s).1.isPlaying = s.isPlaying ∧
    (start s).1.timer = s.timer ∧
    renderLoop s ctxSampleRate durationSec = none := by
  simp [start, renderLoop, h]

/-- Witness for `start_render_no_buffer` at the fresh-mount state. -/
theorem start_render_no_buffer_witness :
    start idleNoBufferState = (idleNoBufferState, some EngineError.NoBufferLoaded) ∧
    (start idleNoBufferState).1.isPlaying = idleNoBufferState.isPlaying ∧
    (start idleNoBufferState).1.timer = idleNoBufferState.timer ∧
    renderLoop idleNoBufferState 44100 5 = none :=
  start_render_no_buffer idleNoBufferState rfl 44100 5

/-- C6: with a buffer loaded, `renderLoop` builds its offline target with
    the source's channel count and exactly `ceil(durationSec ×
    sampleRate)` frames; at `durationSec = 5`, `sampleRate = 44100` that
    is exactly 220500 frames. -/
theorem renderLoop_frames (s : EngineState) (buf : SourceBuffer)
    (h : s.buffer = some buf) (ctxSampleRate durationSec : ℚ) :
    renderLoop s ctxSampleRate durationSec =
      some { numberOfChannels := buf.numberOfChannels,
             frames := ⌈durationSec * ctxSampleRate⌉,
             sampleRate := ctxSampleRate } ∧
    (renderLoop s 44100 5).map RenderedBuffer.frames = some 220500 := by
  refine ⟨by simp [renderLoop, h], ?_⟩
  have hceil : ⌈(5 : ℚ) * 44100⌉ = (220500 : ℤ) := by norm_num
  simp [renderLoop, h, hceil]

/-- Witness for `renderLoop_frames`: rendering 5 seconds at 44.1 kHz from
    the loaded state. -/
theorem renderLoop_frames_witness :
    renderLoop loadedState 44100 5 =
      some { numberOfChannels := stereoSource.numberOfChannels,
             frames := ⌈(5 : ℚ) * 44100⌉, sampleRate := 44100 } ∧
    (renderLoop loadedState 44100 5).map RenderedBuffer.frames = some 220500 :=
  renderLoop_frames loadedState stereoSource rfl 44100 5

/-- C9: `updateParams` is a field-wise last-write-wins merge — every field
    absent from the partial keeps its previous value, every field present
    takes exactly the supplied value.  (The merged record is swapped in as
    one whole snapshot, `paramsRef.current = {...old, ...partial}`, so a
    read sees either the old or the new record, never a torn mix.) -/
theorem updateParams_merge (p : GranularParams) (q : PartialParams) :
    ((q.grainSizeMs = none → (updateParams p q).grainSizeMs = p.grainSizeMs) ∧
      ∀ v, q.grainSizeMs = some v → (updateParams p q).grainSizeMs = v) ∧
    ((q.density = none → (updateParams p q).density = p.density) ∧
      ∀ v, q.density = some v → (updateParams p q).density = v) ∧
    ((q.playbackRate = none → (updateParams p q).playbackRate = p.playbackRate) ∧
      ∀ v, q.playbackRate = some v → (updateParams p q).playbackRate = v) ∧
    ((q.detuneSemitones = none →
        (updateParams p q).detuneSemitones = p.detuneSemitones) ∧
      ∀ v, q.detuneSemitones = some v → (updateParams p q).detuneSemitones = v) ∧
    ((q.startPoint = none → (updateParams p q).startPoint = p.startPoint) ∧
      ∀ v, q.startPoint = some v → (updateParams p q).startPoint = v) ∧
    ((q.endPoint = none → (updateParams p q).endPoint = p.endPoint) ∧
      ∀ v, q.endPoint = some v → (updateParams p q).endPoint = v) ∧
    ((q.attackMs = none → (updateParams p q).attackMs = p.attackMs) ∧
      ∀ v, q.attackMs = some v → (updateParams p q).attackMs = v) ∧
    ((q.releaseMs = none → (updateParams p q).releaseMs = p.releaseMs) ∧
      ∀ v, q.releaseMs = some v → (updateParams p q).releaseMs = v) ∧
    ((q.reverbWet = none → (updateParams p q).reverbWet = p.reverbWet) ∧
      ∀ v, q.reverbWet = some v → (updateParams p q).reverbWet = v) ∧
    ((q.reverbDecay = none → (updateParams p q).reverbDecay = p.reverbDecay) ∧
      ∀ v, q.reverbDecay = some v → (updateParams p q).reverbDecay = v) := by
  refine ⟨⟨?_, ?_⟩, ⟨?_, ?_⟩, ⟨?_, ?_⟩, ⟨?_, ?_⟩, ⟨?_, ?_⟩,
         ⟨?_, ?_⟩, ⟨?_, ?_⟩, ⟨?_, ?_⟩, ⟨?_, ?_⟩, ⟨?_, ?_⟩⟩ <;>
    (intros; simp_all [updateParams])

/-- Witness for `updateParams_merge`: merging a reverb-wet-only partial
    into the defaults keeps `grainSizeMs` and sets `reverbWet` to 0.5. -/
theorem updateParams_merge_witness :
    (updateParams defaultParams wetOnlyPartial).grainSizeMs =
      defaultParams.grainSizeMs ∧
    (updateParams defaultParams wetOnlyPartial).reverbWet = 0.5 :=
  ⟨(updateParams_merge defaultParams wetOnlyPartial).1.1 rfl,
   ((updateParams_merge defaultParams wetOnlyPartial).2.2.2.2.2.2.2.2.1).2 0.5 rfl⟩

/-- Placement arithmetic shared by both grain paths: with a draw
    `r ∈ [0,1)`, the offset `s + r·max(wl − gd, 0)` never precedes `s`;
    it keeps `offset + gd ≤ s + wl` exactly when the grain fits the
    window; and an oversized grain is pinned to `s`. -/
theorem grain_bounds_aux (wl gd r s : ℚ) (hr0 : 0 ≤ r) (hr1 : r < 1) :
    s ≤ s + r * max (wl - gd) 0 ∧
    (gd ≤ wl → s + r * max (wl - gd) 0 + gd ≤ s + wl) ∧
    (wl < gd → s + r * max (wl - gd) 0 = s) := by
  refine ⟨?_, ?_, ?_⟩
  · have h := mul_nonneg hr0 (le_max_right (wl - gd) 0)
    linarith
  · intro hle
    have hmax : max (wl - gd) 0 = wl - gd := max_eq_left (by linarith)
    have h := mul_le_of_le_one_left (show (0:ℚ) ≤ wl - gd by linarith) hr1.le
    rw [hmax]
    linarith
  · intro hlt
    have hmax : max (wl - gd) 0 = 0 := max_eq_right (by linarith)
    rw [hmax]
    ring

/-- C1 (amended): for every parameter set with `endPoint > startPoint`
    and every draw `r ∈ [0,1)`, the produced grain (the same on the live
    and the offline path) satisfies `startPoint ≤ offset` always, and
    `offset + grainDuration ≤ startPoint + windowLength` whenever
    `grainDuration ≤ windowLength`; when the grain exceeds the window the
    offset is pinned to `startPoint` (and then `offset + grainDuration`
    necessarily exceeds `startPoint + windowLength`). -/
theorem grainWindow_amended (params : GranularParams) (r t : ℚ)
    (hr0 : 0 ≤ r) (hr1 : r < 1)
    (h : params.startPoint < params.endPoint) :
    params.startPoint ≤ (offlineGrain params r t).offset ∧
    ((offlineGrain params r t).grainDuration ≤ windowLength params →
      (offlineGrain params r t).offset + (offlineGrain params r t).grainDuration ≤
        params.startPoint + windowLength params) ∧
    (windowLength params < (offlineGrain params r t).grainDuration →
      (offlineGrain params r t).offset = params.startPoint) ∧
    spawnGrain params r t = some (offlineGrain params r t) := by
  have haux := grain_bounds_aux (windowLength params)
    (params.grainSizeMs / 1000) r params.startPoint hr0 hr1
  simp only [offlineGrain, windowLength] at haux ⊢
  exact ⟨haux.1, haux.2.1, haux.2.2,
    spawnGrain_eq_offlineGrain params r t (not_le.mpr h)⟩

/-- Witness for `grainWindow_amended`: the default parameters (window
    `[0,1]`, 120 ms grains) at draw 1/2 and clock 0. -/
theorem grainWindow_amended_witness :
    (0 : ℚ) ≤ 1/2 ∧ (1/2 : ℚ) < 1 ∧
    defaultParams.startPoint < defaultParams.endPoint ∧
    defaultParams.startPoint ≤ (offlineGrain defaultParams (1/2) 0).offset :=
  ⟨by norm_num, by norm_num, by norm_num [defaultParams],
   (grainWindow_amended defaultParams (1/2) 0 (by norm_num) (by norm_num)
      (by norm_num [defaultParams])).1⟩

/-- Counterexample to C1 as stated: with `startPoint = 0 < endPoint = 1`
    and `grainSizeMs = 2000` (grainDuration 2 s > windowLength 1 s) the
    grain produced at draw 0 — on the live path and identically at an
    offline grid point — violates
    `offset + grainDuration ≤ startPoint + windowLength`. -/
theorem grainWindow_claim_counterexample :
    oversizedGrainParams.startPoint < oversizedGrainParams.endPoint ∧
    (0 : ℚ) ≤ 0 ∧ (0 : ℚ) < 1 ∧
    spawnGrain oversizedGrainParams 0 0 =
      some (offlineGrain oversizedGrainParams 0 0) ∧
    ¬ ((offlineGrain oversizedGrainParams 0 0).offset +
        (offlineGrain oversizedGrainParams 0 0).grainDuration ≤
        oversizedGrainParams.startPoint + windowLength oversizedGrainParams) := by
  refine ⟨by norm_num [oversizedGrainParams, defaultParams], by norm_num,
    by norm_num, spawnGrain_eq_offlineGrain _ _ _
      (by norm_num [oversizedGrainParams, defaultParams]), ?_⟩
  norm_num [offlineGrain, windowLength, oversizedGrainParams, defaultParams]

/-- C3: the effective playback rate applied to a grain is
    `playbackRate × 2^(detuneSemitones/12)`, identically on the live and
    the offline path; at playbackRate 1 a detune of +12 semitones gives
    rate 2 and −12 gives rate 1/2. -/
theorem effective_rate :
    (∀ params : GranularParams,
        spawnGrainRate params =
          (params.playbackRate : ℝ) *
            (2 : ℝ) ^ ((params.detuneSemitones : ℝ) / 12)) ∧
    (∀ params : GranularParams, spawnGrainRate params = offlineGrainRate params) ∧
    spawnGrainRate { defaultParams with playbackRate := 1, detuneSemitones := 12 } = 2 ∧
    spawnGrainRate { defaultParams with playbackRate := 1, detuneSemitones := -12 } = 0.5 := by
  refine ⟨fun _ => rfl, fun _ => rfl, ?_, ?_⟩
  · simp only [spawnGrainRate, defaultParams]
    rw [show (((12 : ℚ) : ℝ)) / 12 = 1 by norm_num, Real.rpow_one]
    norm_num
  · simp only [spawnGrainRate, defaultParams]
    rw [show (((-12 : ℚ) : ℝ)) / 12 = ((-1 : ℤ) : ℝ) by norm_num,
      Real.rpow_intCast]
    norm_num

/-- C7: the reverb impulse response — built by the same `makeImpulse`
    code on the live and the offline path — has exactly 2 channels, each
    of exactly `max(floor(decaySec × sampleRate), 1)` samples, every
    sample being a draw `u = 2·rand − 1 ∈ [−1, 1)` times the quadratic
    decay factor `(1 − i/length)^2`; at decaySec = 2.5 and 44100 Hz the
    length is 110250 on both paths. -/
theorem reverb_impulse_spec (decaySec sampleRate : ℚ) (rand : ℕ → ℕ → ℚ)
    (hrand : ∀ ch i, 0 ≤ rand ch i ∧ rand ch i < 1) :
    makeImpulseLive decaySec sampleRate rand =
      makeImpulseOffline decaySec sampleRate rand ∧
    (makeImpulseLive decaySec sampleRate rand).length = 2 ∧
    (∀ chan ∈ makeImpulseLive decaySec sampleRate rand,
        chan.length = impulseLength decaySec sampleRate) ∧
    (impulseLength decaySec sampleRate : ℤ) = max ⌊decaySec * sampleRate⌋ 1 ∧
    (∀ (ch : ℕ) (chan : List ℚ),
      (makeImpulseLive decaySec sampleRate rand)[ch]? = some chan →
      ∀ (i : ℕ) (sample : ℚ), chan[i]? = some sample →
        ∃ u : ℚ, -1 ≤ u ∧ u < 1 ∧
          sample = u *
            (1 - (i : ℚ) / (impulseLength decaySec sampleRate : ℚ)) ^ 2) ∧
    impulseLength 2.5 44100 = 110250 := by
  refine ⟨rfl, by simp [makeImpulseLive], ?_, ?_, ?_, ?_⟩
  · intro chan hchan
    simp only [makeImpulseLive, List.mem_map, List.mem_range] at hchan
    obtain ⟨c, -, rfl⟩ := hchan
    simp
  · have h1 : (1 : ℤ) ≤ max ⌊decaySec * sampleRate⌋ 1 := le_max_right _ _
    simp only [impulseLength]
    omega
  · intro ch chan hch i sample hs
    simp only [makeImpulseLive] at hch
    by_cases h2 : ch < 2
    · rw [List.getElem?_map, List.getElem?_range h2] at hch
      simp only [Option.map_some', Option.some.injEq] at hch
      subst hch
      by_cases hi : i < impulseLength decaySec sampleRate
      · rw [List.getElem?_map, List.getElem?_range hi] at hs
        simp only [Option.map_some', Option.some.injEq] at hs
        subst hs
        exact ⟨rand ch i * 2 - 1, by linarith [(hrand ch i).1],
          by linarith [(hrand ch i).2], rfl⟩
      · rw [List.getElem?_map,
          List.getElem?_eq_none (by simp only [List.length_range]; omega)] at hs
        simp at hs
    · rw [List.getElem?_map,
        List.getElem?_eq_none (by simp only [List.length_range]; omega)] at hch
      simp at hch
  · simp only [impulseLength]
    norm_num
    rfl

/-- Witness for `reverb_impulse_spec` at decaySec = 2.5, 44100 Hz with
    the constant mid-range RNG stream. -/
theorem reverb_impulse_spec_witness :
    (∀ ch i : ℕ, 0 ≤ halfRand ch i ∧ halfRand ch i < 1) ∧
    (makeImpulseLive 2.5 44100 halfRand).length = 2 ∧
    impulseLength 2.5 44100 = 110250 := by
  have h : ∀ ch i : ℕ, 0 ≤ halfRand ch i ∧ halfRand ch i < 1 := by
    intro ch i
    constructor <;> norm_num [halfRand]
  have hmain := reverb_impulse_spec 2.5 44100 halfRand h
  exact ⟨h, hmain.2.1, hmain.2.2.2.2.2⟩

/-- C10: whenever `0 < endPoint − startPoint < 0.05 − grainDuration`,
    the minimum-window clamp widens the draw window beyond the selected
    region (to 0.05 s for nonnegative grain sizes), and some admissible
    draw places the grain offset strictly beyond `endPoint` (yet at most
    `startPoint + 0.05 − grainDuration`): grains can read source material
    outside the user-selected `[startPoint, endPoint]` region, on the
    live and the offline path alike. -/
theorem grain_offset_beyond_endPoint (params : GranularParams)
    (h1 : 0 < params.endPoint - params.startPoint)
    (h2 : params.endPoint - params.startPoint <
      0.05 - params.grainSizeMs / 1000) :
    (0 ≤ params.grainSizeMs → windowLength params = 0.05) ∧
    ∃ r : ℚ, 0 ≤ r ∧ r < 1 ∧
      params.endPoint < (offlineGrain params r 0).offset ∧
      (offlineGrain params r 0).offset ≤
        params.startPoint + (0.05 - params.grainSizeMs / 1000) ∧
      spawnGrain params r 0 = some (offlineGrain params r 0) := by
  have hwl : params.endPoint - params.startPoint ≤ windowLength params :=
    le_max_left _ _
  have hwl05 : (0.05 : ℚ) ≤ windowLength params := le_max_right _ _
  have hwd : 0.05 - params.grainSizeMs / 1000 ≤
      windowLength params - params.grainSizeMs / 1000 := by linarith
  have hpos : 0 < windowLength params - params.grainSizeMs / 1000 := by linarith
  have hmax : max (windowLength params - params.grainSizeMs / 1000) 0 =
      windowLength params - params.grainSizeMs / 1000 := max_eq_left hpos.le
  have hoff : ∀ r : ℚ, (offlineGrain params r 0).offset =
      params.startPoint +
        r * (windowLength params - params.grainSizeMs / 1000) := by
    intro r
    simp only [windowLength] at hmax
    simp only [offlineGrain, hmax, windowLength]
  have key : ∀ a w : ℚ, w ≠ 0 → a / (2 * w) * w = a / 2 := by
    intro a w hw
    field_simp
    ring
  have hx := key
    (params.endPoint - params.startPoint + (0.05 - params.grainSizeMs / 1000))
    (windowLength params - params.grainSizeMs / 1000) (ne_of_gt hpos)
  constructor
  · intro hg
    have hgd : 0 ≤ params.grainSizeMs / 1000 := by positivity
    exact max_eq_right (by linarith)
  · refine ⟨(params.endPoint - params.startPoint +
        (0.05 - params.grainSizeMs / 1000)) /
        (2 * (windowLength params - params.grainSizeMs / 1000)),
      ?_, ?_, ?_, ?_, ?_⟩
    · exact div_nonneg (by linarith) (by linarith)
    · rw [div_lt_one (by linarith)]
      linarith
    · rw [hoff, hx]
      linarith
    · rw [hoff, hx]
      linarith
    · exact spawnGrain_eq_offlineGrain params _ 0 (by intro hle; linarith)

/-- Witness for `grain_offset_beyond_endPoint`: the 10 ms region. -/
theorem grain_offset_beyond_endPoint_witness :
    (0 : ℚ) < narrowRegionParams.endPoint - narrowRegionParams.startPoint ∧
    narrowRegionParams.endPoint - narrowRegionParams.startPoint <
      0.05 - narrowRegionParams.grainSizeMs / 1000 ∧
    ((0 ≤ narrowRegionParams.grainSizeMs →
        windowLength narrowRegionParams = 0.05) ∧
      ∃ r : ℚ, 0 ≤ r ∧ r < 1 ∧
        narrowRegionParams.endPoint <
          (offlineGrain narrowRegionParams r 0).offset ∧
        (offlineGrain narrowRegionParams r 0).offset ≤
          narrowRegionParams.startPoint +
            (0.05 - narrowRegionParams.grainSizeMs / 1000) ∧
        spawnGrain narrowRegionParams r 0 =
          some (offlineGrain narrowRegionParams r 0)) :=
  ⟨by norm_num [narrowRegionParams, defaultParams],
   by norm_num [narrowRegionParams, defaultParams],
   grain_offset_beyond_endPoint narrowRegionParams
     (by norm_num [narrowRegionParams, defaultParams])
     (by norm_num [narrowRegionParams, defaultParams])⟩

end Granular
